import Mathlib

/-!
# gohop2: the session state machine and forwarding dispatcher of `server.go`

A shallow embedding of `src/src/server.go`.  Go pointers to `VPNPeer` objects are
natural numbers into an explicit object store (`heap`), because the source keeps
using a peer object after the registry has forgotten it (timers, the `FIN` sent
after `DeletePeer`).  Channels are FIFO lists; the blocking of a full channel is
not represented.  Goroutines started by `handleHandshake` are entries of `timers`
and advance through the events of `step`.
-/

namespace Hop

/-! ## Data model -/

/-- Protocol flag byte of a wire packet.  The numeric values live in the codec,
which is not part of `server.go`; only the identity of the flag matters here. -/
inductive Flag
  | HOP_FLG_PING
  | HOP_FLG_PING_ACK
  | HOP_FLG_HSH
  | HOP_FLG_HSH_ACK
  | HOP_FLG_DAT
  | HOP_FLG_FIN
  | HOP_FLG_FIN_ACK
  deriving DecidableEq, Repr

/-- Modelled from the spec: the `state` field of `VPNPeer`, an enum
{HANDSHAKE, WORKING} (the constants `HOP_STAT_*` are declared outside `server.go`). -/
inductive PeerState
  | HOP_STAT_HANDSHAKE
  | HOP_STAT_WORKING
  deriving DecidableEq, Repr

open Flag PeerState

/-- Application payloads handed to `SendToClient`. -/
inductive AppPacket
  | PingPacket
  | PingAckPacket
  | HandshakeAckPacket (Ip : Nat) (MaskSize : Nat)
  | DataPacket (Payload : List Nat)
  | FinPacket
  | FinAckPacket
  deriving DecidableEq, Repr

/-- A decoded wire packet (the result of `unpackHopPacket`). -/
structure HopPacket where
  Proto : Flag
  Sid : Nat
  Seq : Nat
  Payload : List Nat
  deriving DecidableEq, Repr

/-- What `SendToClient` puts on `toNet`: `conn` is a connection of the peer object
`conn` (chosen by `peer.RandomConn()`), `seq` the sequence number drawn from that
peer, `app` the payload that `hp.Pack()` serialises. -/
structure RawPacket where
  conn : Nat
  seq : Nat
  app : AppPacket
  deriving DecidableEq, Repr

/-- Modelled from the spec: the `VPNPeer` record (spec section 3).  `hsDone` counts
the signals sent on the handshake channel and not yet received. -/
structure VPNPeer where
  sid : Nat
  ip : Nat
  state : PeerState
  lastSeenTime : Nat
  seq : Nat
  hsDone : Nat
  deriving DecidableEq, Repr

/-- The `net.IPMask` of a subnet produced by `net.ParseCIDR`: always canonical, so
it is kept as its number of leading ones and its width. -/
structure IPMask where
  ones : Nat
  bits : Nat
  deriving DecidableEq, Repr

/-- Go's `IPMask.Size()`. -/
def IPMask.Size (m : IPMask) : Nat × Nat := (m.ones, m.bits)

/-- Go's `net.IPNet`. -/
structure IPNet where
  IP : Nat
  Mask : IPMask
  deriving DecidableEq, Repr

/-- Modelled from the spec: the address pool of the registry, the subnet and the
addresses of it that are currently free, lowest first. -/
structure IPPool where
  subnet : IPNet
  free : List Nat
  deriving DecidableEq, Repr

/-- Modelled from the spec: the peer registry `VPNPeers` (spec sections 3 and 4.2).
Both indices are association lists from key to peer object; `PeerTimeout` is the
timeout sink. -/
structure VPNPeers where
  PeersByID : List (Nat × Nat)
  peersByIP : List (Nat × Nat)
  ippool : IPPool
  PeerTimeout : List Nat
  deriving DecidableEq, Repr

/-- Phase of the goroutine started at `server.go:280`. -/
inductive TimerPhase
  | waiting
  | signalled
  | finished
  deriving DecidableEq, Repr

/-- One goroutine started by `handleHandshake`, closed over `peer`. -/
structure HsTimer where
  peer : Nat
  phase : TimerPhase
  deriving DecidableEq, Repr

/-- The server: the registry, the two output queues, and the part of the Go
runtime the handlers act on (peer objects and timer goroutines). -/
structure CandyVPNServer where
  peers : VPNPeers
  toNet : List RawPacket
  toIface : List HopPacket
  heap : Nat → VPNPeer
  nextPtr : Nat
  timers : List HsTimer

/-! ## Registry operations (absent from `src/`) -/

/-- Modelled from the spec: removal of a key from an index of the registry. -/
def eraseKey (k : Nat) (m : List (Nat × Nat)) : List (Nat × Nat) :=
  m.filter (fun e => !(e.1 == k))

/-- Modelled from the spec: usable host addresses of a subnet, network and
broadcast address excluded. -/
def usableHosts (subnet : IPNet) : List Nat :=
  (List.range (2 ^ (subnet.Mask.bits - subnet.Mask.ones) - 2)).map (fun i => subnet.IP + 1 + i)

/-- Modelled from the spec: `NewVPNPeers(subnet, timeout)`, an empty registry whose
pool is the usable host range of the subnet. -/
def NewVPNPeers (subnet : IPNet) : VPNPeers :=
  { PeersByID := [], peersByIP := [], ippool := { subnet := subnet, free := usableHosts subnet },
    PeerTimeout := [] }

/-- Modelled from the spec: `Lookup(sid)`, the map access `PeersByID[sid]`. -/
def VPNPeers.Lookup (ps : VPNPeers) (sid : Nat) : Option Nat :=
  ps.PeersByID.lookup sid

/-- Modelled from the spec: `LookupByIP`, the map access `peersByIP[key]`. -/
def VPNPeers.LookupByIP (ps : VPNPeers) (key : Nat) : Option Nat :=
  ps.peersByIP.lookup key

/-- Modelled from the spec: `NewPeer(sid)` (section 4.2).  Allocates the first free
address, constructs a peer in HANDSHAKE with `lastSeenTime = now`, inserts it into
both indices; fails, inserting nothing, when the pool is empty. -/
def NewPeer (srv : CandyVPNServer) (now sid : Nat) : CandyVPNServer × Option Nat :=
  match srv.peers.ippool.free with
  | [] => (srv, none)
  | ip :: rest =>
    let p := srv.nextPtr
    let obj : VPNPeer :=
      { sid := sid, ip := ip, state := HOP_STAT_HANDSHAKE, lastSeenTime := now, seq := 0, hsDone := 0 }
    ({ srv with
        heap := Function.update srv.heap p obj
        nextPtr := p + 1
        peers := { srv.peers with
                    PeersByID := (sid, p) :: eraseKey sid srv.peers.PeersByID
                    peersByIP := (ip, p) :: eraseKey ip srv.peers.peersByIP
                    ippool := { srv.peers.ippool with free := rest } } }, some p)

/-- Modelled from the spec: `DeletePeer(sid)` (section 4.2).  Removes both index
entries and returns the address to the pool; a no-op when the sid is absent. -/
def DeletePeer (srv : CandyVPNServer) (sid : Nat) : CandyVPNServer :=
  match srv.peers.Lookup sid with
  | none => srv
  | some p =>
    let ip := (srv.heap p).ip
    { srv with
        peers := { srv.peers with
                    PeersByID := eraseKey sid srv.peers.PeersByID
                    peersByIP := eraseKey ip srv.peers.peersByIP
                    ippool := { srv.peers.ippool with
                                 free := List.orderedInsert (fun a b => a ≤ b) ip srv.peers.ippool.free } } }

/-! ## `server.go` -/

/-- `SendToClient` (server.go:258-263): draw the peer's next sequence number, wrap
the payload, queue it on `toNet` for one of the peer's connections. -/
def SendToClient (srv : CandyVPNServer) (peer : Nat) (p : AppPacket) : CandyVPNServer :=
  let obj := srv.heap peer
  let seq := obj.seq + 1
  { srv with
      heap := Function.update srv.heap peer { obj with seq := seq }
      toNet := srv.toNet ++ [{ conn := peer, seq := seq, app := p }] }

/-- `handlePing` (server.go:265-269). -/
def handlePing (srv : CandyVPNServer) (hpeer : Nat) (_hp : HopPacket) : CandyVPNServer :=
  if (srv.heap hpeer).state = HOP_STAT_WORKING then
    SendToClient srv hpeer AppPacket.PingAckPacket
  else srv

/-- `handleHandshake` (server.go:271-290): store HANDSHAKE, send HSH_ACK, start
the timer goroutine. -/
def handleHandshake (srv : CandyVPNServer) (peer : Nat) (_hp : HopPacket) : CandyVPNServer :=
  let s1 : CandyVPNServer :=
    { srv with heap := Function.update srv.heap peer { srv.heap peer with state := HOP_STAT_HANDSHAKE } }
  let s2 := SendToClient s1 peer
    (AppPacket.HandshakeAckPacket (s1.heap peer).ip s1.peers.ippool.subnet.Mask.Size.1)
  { s2 with timers := s2.timers ++ [{ peer := peer, phase := TimerPhase.waiting }] }

/-- `handleHandshakeAck` (server.go:292-301): compare-and-swap HANDSHAKE to
WORKING; on success send on `hsDone`, otherwise delete the peer and send FIN. -/
def handleHandshakeAck (srv : CandyVPNServer) (peer : Nat) (_hp : HopPacket) : CandyVPNServer :=
  if (srv.heap peer).state = HOP_STAT_HANDSHAKE then
    { srv with
        heap := Function.update srv.heap peer
          { srv.heap peer with state := HOP_STAT_WORKING, hsDone := (srv.heap peer).hsDone + 1 } }
  else
    SendToClient (DeletePeer srv (srv.heap peer).sid) peer AppPacket.FinPacket

/-- `handleDataPacket` (server.go:303-307). -/
def handleDataPacket (srv : CandyVPNServer) (peer : Nat) (hp : HopPacket) : CandyVPNServer :=
  if (srv.heap peer).state = HOP_STAT_WORKING then
    { srv with toIface := srv.toIface ++ [hp] }
  else srv

/-- `handleFinish` (server.go:309-313). -/
def handleFinish (srv : CandyVPNServer) (peer : Nat) (_hp : HopPacket) : CandyVPNServer :=
  SendToClient (DeletePeer srv (srv.heap peer).sid) peer AppPacket.FinAckPacket

/-- The names of the handler functions stored in `pktHandle`. -/
inductive Handler
  | handlePing
  | handleHandshake
  | handleHandshakeAck
  | handleDataPacket
  | handleFinish
  deriving DecidableEq, Repr

/-- Calling a handler value. -/
def Handler.call : Handler → CandyVPNServer → Nat → HopPacket → CandyVPNServer
  | Handler.handlePing => Hop.handlePing
  | Handler.handleHandshake => Hop.handleHandshake
  | Handler.handleHandshakeAck => Hop.handleHandshakeAck
  | Handler.handleDataPacket => Hop.handleDataPacket
  | Handler.handleFinish => Hop.handleFinish

/-- The table `pktHandle` (server.go:193-200).  The outer `Option` is the `ok` of
the map access, the inner one the `nil` stored for `HOP_FLG_PING_ACK`. -/
def pktHandle : Flag → Option (Option Handler)
  | HOP_FLG_PING => some (some Handler.handlePing)
  | HOP_FLG_PING_ACK => some none
  | HOP_FLG_HSH => some (some Handler.handleHandshake)
  | HOP_FLG_HSH_ACK => some (some Handler.handleHandshakeAck)
  | HOP_FLG_DAT => some (some Handler.handleDataPacket)
  | HOP_FLG_FIN => some (some Handler.handleFinish)
  | HOP_FLG_FIN_ACK => none

/-- Peer resolution of the network branch (server.go:230-241): the registered peer,
or for an HSH of an unknown sid the peer `NewPeer` has just inserted; `none` is the
`nil` pointer. -/
def resolvePeer (srv : CandyVPNServer) (now : Nat) (hPack : HopPacket) : CandyVPNServer × Option Nat :=
  match srv.peers.Lookup hPack.Sid with
  | some p => (srv, some p)
  | none =>
    if hPack.Proto = HOP_FLG_HSH then
      let s1 := (NewPeer srv now hPack.Sid).1
      (s1, s1.peers.Lookup hPack.Sid)
    else (srv, none)

/-- The handler invocation the network branch performs for a decoded packet, if
any: the handler and the peer object it is called on (server.go:229-248). -/
def invoked (srv : CandyVPNServer) (now : Nat) (hPack : HopPacket) : Option (Handler × Nat) :=
  match pktHandle hPack.Proto with
  | none => none
  | some handle_func =>
    match (resolvePeer srv now hPack).2, handle_func with
    | some p, some h => some (h, p)
    | _, _ => none

/-- The network branch of `forwardFrames` (server.go:224-253).  `unpacked` is the
result of `unpackHopPacket(packet.data)`, `none` standing for a decode error. -/
def forwardFrames_fromNet (srv : CandyVPNServer) (now : Nat) (unpacked : Option HopPacket) :
    CandyVPNServer :=
  match unpacked with
  | none => srv
  | some hPack =>
    match pktHandle hPack.Proto with
    | none => srv
    | some handle_func =>
      match resolvePeer srv now hPack with
      | (s1, none) => s1
      | (s1, some p) =>
        let s2 : CandyVPNServer :=
          { s1 with heap := Function.update s1.heap p { s1.heap p with lastSeenTime := now } }
        match handle_func with
        | none => s2
        | some h => h.call s2 p hPack

/-- The loop of Go's `binary.Uvarint` (encoding/binary) at byte index `i`, with the
accumulated value `x` (a `uint64`) and the shift `s`. -/
def UvarintAux : List Nat → Nat → Nat → Nat → Nat × Int
  | [], _, _, _ => (0, 0)
  | b :: rest, i, x, s =>
    if i = 10 then (0, -((i : Int) + 1))
    else if b < 0x80 then
      if i = 9 ∧ b > 1 then (0, -((i : Int) + 1))
      else ((x ||| (b <<< s)) % 2 ^ 64, (i : Int) + 1)
    else UvarintAux rest (i + 1) ((x ||| ((b &&& 0x7f) <<< s)) % 2 ^ 64) (s + 7)

/-- Go's `binary.Uvarint`: decode a base-128 varint from the front of `buf`,
returning the value and the number of bytes read (0 or negative on failure). -/
def Uvarint (buf : List Nat) : Nat × Int := UvarintAux buf 0 0 0

/-- `waterutil.IPv4Destination(pack).To4()`: bytes 16..19 of the IPv4 header.  A
frame shorter than 20 bytes makes the Go code index out of range (`none`). -/
def IPv4Destination (pack : List Nat) : Option (List Nat) :=
  if 20 ≤ pack.length then some ((pack.drop 16).take 4) else none

/-- The interface branch of `forwardFrames` (server.go:213-222). -/
def forwardFrames_fromIface (srv : CandyVPNServer) (pack : List Nat) : Option CandyVPNServer :=
  match IPv4Destination pack with
  | none => none
  | some dest =>
    let mkey := (Uvarint dest).1
    match srv.peers.LookupByIP mkey with
    | some hpeer => some (SendToClient srv hpeer (AppPacket.DataPacket pack))
    | none => some srv

/-- The ticker branch of `peerTimeoutWatcher` (server.go:332-336): a PING to every
peer of `PeersByID`. -/
def peerTimeoutWatcher_tick (srv : CandyVPNServer) : CandyVPNServer :=
  srv.peers.PeersByID.foldl (fun s e => SendToClient s e.2 AppPacket.PingPacket) srv

/-- The sink branch of `peerTimeoutWatcher` (server.go:337-338): receive one peer
from `PeerTimeout` and send it FIN.  `none` when the channel is empty (the receive
blocks). -/
def peerTimeoutWatcher_timeout (srv : CandyVPNServer) : Option CandyVPNServer :=
  match srv.peers.PeerTimeout with
  | [] => none
  | peer :: rest =>
    some (SendToClient { srv with peers := { srv.peers with PeerTimeout := rest } } peer
      AppPacket.FinPacket)

/-- Modelled from the spec: the background liveness sweep of the registry (section
4.2).  Every registered peer whose `lastSeenTime` is older than `timeout` is pushed
onto the timeout sink; the sweep deletes nothing. -/
def livenessSweep (srv : CandyVPNServer) (now timeout : Nat) : CandyVPNServer :=
  { srv with
      peers := { srv.peers with
                  PeerTimeout := srv.peers.PeerTimeout ++
                    ((srv.peers.PeersByID.filter
                        (fun e => decide ((srv.heap e.2).lastSeenTime + timeout < now))).map
                      (fun e => e.2)) } }

/-! ## The timer goroutine of `handleHandshake` (server.go:280-289) -/

/-- The goroutine `t` takes `case <-peer.hsDone`: possible while it waits and a
signal is pending on the channel of its peer. -/
def timerRecv (srv : CandyVPNServer) (t : Nat) : Option CandyVPNServer :=
  match srv.timers.get? t with
  | some ⟨peer, TimerPhase.waiting⟩ =>
    if 0 < (srv.heap peer).hsDone then
      some { srv with
              heap := Function.update srv.heap peer
                { srv.heap peer with hsDone := (srv.heap peer).hsDone - 1 }
              timers := srv.timers.set t { peer := peer, phase := TimerPhase.signalled } }
    else none
  | _ => none

/-- The goroutine `t`, having received the signal, runs
`peer.state = HOP_STAT_WORKING; return` (server.go:283-284). -/
def timerStore (srv : CandyVPNServer) (t : Nat) : Option CandyVPNServer :=
  match srv.timers.get? t with
  | some ⟨peer, TimerPhase.signalled⟩ =>
    some { srv with
            heap := Function.update srv.heap peer { srv.heap peer with state := HOP_STAT_WORKING }
            timers := srv.timers.set t { peer := peer, phase := TimerPhase.finished } }
  | _ => none

/-- The goroutine `t` takes `case <-time.After(6 * time.Second)`: FIN to the peer,
then `DeletePeer(peer.sid)` (server.go:285-287). -/
def timerExpire (srv : CandyVPNServer) (t : Nat) : Option CandyVPNServer :=
  match srv.timers.get? t with
  | some ⟨peer, TimerPhase.waiting⟩ =>
    let s1 := SendToClient srv peer AppPacket.FinPacket
    let s2 := DeletePeer s1 (s1.heap peer).sid
    some { s2 with timers := s2.timers.set t { peer := peer, phase := TimerPhase.finished } }
  | _ => none

/-! ## The step relation -/

/-- What can happen next: one iteration of the dispatcher loop, one move of a timer
goroutine, one iteration of the watcher loop, or a sweep of the registry. -/
inductive Event
  | fromIface (pack : List Nat)
  | fromNet (now : Nat) (unpacked : Option HopPacket)
  | timerRecv (t : Nat)
  | timerStore (t : Nat)
  | timerExpire (t : Nat)
  | tick
  | peerTimeout
  | sweep (now timeout : Nat)
  deriving DecidableEq, Repr

/-- One step; `none` when the event cannot happen in this state. -/
def step (srv : CandyVPNServer) : Event → Option CandyVPNServer
  | Event.fromIface pack => forwardFrames_fromIface srv pack
  | Event.fromNet now unpacked => some (forwardFrames_fromNet srv now unpacked)
  | Event.timerRecv t => Hop.timerRecv srv t
  | Event.timerStore t => Hop.timerStore srv t
  | Event.timerExpire t => Hop.timerExpire srv t
  | Event.tick => some (peerTimeoutWatcher_tick srv)
  | Event.peerTimeout => peerTimeoutWatcher_timeout srv
  | Event.sweep now timeout => some (livenessSweep srv now timeout)

/-- Run a sequence of events from a state. -/
def run : List Event → CandyVPNServer → Option CandyVPNServer
  | [], srv => some srv
  | e :: es, srv =>
    match step srv e with
    | none => none
    | some s => run es s

/-- The server as `NewServer` leaves it (server.go:81-108): empty queues, the
registry of `NewVPNPeers(subnet, ...)`, no peer objects, no timers. -/
def initServer (subnet : IPNet) : CandyVPNServer :=
  { peers := NewVPNPeers subnet
    toNet := []
    toIface := []
    heap := fun _ =>
      { sid := 0, ip := 0, state := HOP_STAT_HANDSHAKE, lastSeenTime := 0, seq := 0, hsDone := 0 }
    nextPtr := 0
    timers := [] }

/-- The peer whose state is written by a successful compare-and-swap of
`handleHandshakeAck` in this step, if the step is one. -/
def casSuccess (srv : CandyVPNServer) : Event → Option Nat
  | Event.fromNet now (some hPack) =>
    match invoked srv now hPack with
    | some (Handler.handleHandshakeAck, p) =>
      if (srv.heap p).state = HOP_STAT_HANDSHAKE then some p else none
    | _ => none
  | _ => none

/-- The subnet 10.8.0.0/24 of the spec scenarios. -/
def subnet24 : IPNet := { IP := 168296448, Mask := { ones := 24, bits := 32 } }

/-- A decoded packet with the given flag and session id. -/
def pkt (f : Flag) (sid : Nat) : HopPacket := { Proto := f, Sid := sid, Seq := 0, Payload := [] }

/-- Scenario A: the server after the HSH of sid 42 on the empty registry. -/
def exHandshake : CandyVPNServer :=
  forwardFrames_fromNet (initServer subnet24) 0 (some (pkt HOP_FLG_HSH 42))

/-- Scenario B: the server after the client's HSH_ACK. -/
def exWorking : CandyVPNServer :=
  forwardFrames_fromNet exHandshake 1 (some (pkt HOP_FLG_HSH_ACK 42))

/-- HSH, HSH_ACK received by the first timer, a second HSH, and then the first
timer about to run its store. -/
def traceRehandshake : List Event :=
  [Event.fromNet 0 (some (pkt HOP_FLG_HSH 42)),
   Event.fromNet 1 (some (pkt HOP_FLG_HSH_ACK 42)),
   Event.timerRecv 0,
   Event.fromNet 2 (some (pkt HOP_FLG_HSH 42))]

/-- Two HSH for the same sid, then the HSH_ACK, consumed by the first timer. -/
def traceDoubleHandshake : List Event :=
  [Event.fromNet 0 (some (pkt HOP_FLG_HSH 42)),
   Event.fromNet 1 (some (pkt HOP_FLG_HSH 42)),
   Event.fromNet 2 (some (pkt HOP_FLG_HSH_ACK 42)),
   Event.timerRecv 0,
   Event.timerStore 0]

/-- A completed handshake followed, much later, by a liveness sweep. -/
def traceKeepaliveTimeout : List Event :=
  [Event.fromNet 0 (some (pkt HOP_FLG_HSH 42)),
   Event.fromNet 1 (some (pkt HOP_FLG_HSH_ACK 42)),
   Event.timerRecv 0,
   Event.timerStore 0,
   Event.sweep 100 30]

/-- A 20-byte IPv4 header from 10.8.0.254 to 10.8.0.`last`. -/
def frameTo (last : Nat) : List Nat :=
  [0x45, 0, 0, 20, 0, 0, 0, 0, 64, 17, 0, 0, 10, 8, 0, 254, 10, 8, 0, last]

end Hop

namespace Hop

open Flag PeerState

/-! ## Frame lemmas -/

theorem lookup_eraseKey (k : Nat) (m : List (Nat × Nat)) : (eraseKey k m).lookup k = none := by
  induction m with
  | nil => rfl
  | cons e m ih =>
    obtain ⟨a, b⟩ := e
    by_cases h : a = k
    · simpa [eraseKey, h] using ih
    · have hk : (k == a) = false := by simpa using fun h2 => h h2.symm
      simpa [eraseKey, h, List.lookup, hk] using ih

theorem DeletePeer_Lookup (srv : CandyVPNServer) (sid : Nat) :
    (DeletePeer srv sid).peers.Lookup sid = none := by
  unfold DeletePeer
  cases h : srv.peers.Lookup sid with
  | none => simpa using h
  | some p => simp [VPNPeers.Lookup, lookup_eraseKey]

@[simp] theorem DeletePeer_heap (srv : CandyVPNServer) (sid : Nat) :
    (DeletePeer srv sid).heap = srv.heap := by
  unfold DeletePeer; cases srv.peers.Lookup sid <;> rfl

@[simp] theorem DeletePeer_toNet (srv : CandyVPNServer) (sid : Nat) :
    (DeletePeer srv sid).toNet = srv.toNet := by
  unfold DeletePeer; cases srv.peers.Lookup sid <;> rfl

@[simp] theorem DeletePeer_toIface (srv : CandyVPNServer) (sid : Nat) :
    (DeletePeer srv sid).toIface = srv.toIface := by
  unfold DeletePeer; cases srv.peers.Lookup sid <;> rfl

@[simp] theorem DeletePeer_timers (srv : CandyVPNServer) (sid : Nat) :
    (DeletePeer srv sid).timers = srv.timers := by
  unfold DeletePeer; cases srv.peers.Lookup sid <;> rfl

@[simp] theorem SendToClient_peers (srv : CandyVPNServer) (peer : Nat) (p : AppPacket) :
    (SendToClient srv peer p).peers = srv.peers := rfl

@[simp] theorem SendToClient_toIface (srv : CandyVPNServer) (peer : Nat) (p : AppPacket) :
    (SendToClient srv peer p).toIface = srv.toIface := rfl

@[simp] theorem SendToClient_timers (srv : CandyVPNServer) (peer : Nat) (p : AppPacket) :
    (SendToClient srv peer p).timers = srv.timers := rfl

@[simp] theorem SendToClient_toNet (srv : CandyVPNServer) (peer : Nat) (p : AppPacket) :
    (SendToClient srv peer p).toNet
      = srv.toNet ++ [{ conn := peer, seq := (srv.heap peer).seq + 1, app := p }] := rfl

@[simp] theorem SendToClient_state (srv : CandyVPNServer) (peer : Nat) (p : AppPacket) (q : Nat) :
    ((SendToClient srv peer p).heap q).state = (srv.heap q).state := by
  by_cases h : q = peer
  · subst h; simp [SendToClient]
  · simp [SendToClient, Function.update_noteq h]

@[simp] theorem SendToClient_sid (srv : CandyVPNServer) (peer : Nat) (p : AppPacket) (q : Nat) :
    ((SendToClient srv peer p).heap q).sid = (srv.heap q).sid := by
  by_cases h : q = peer
  · subst h; simp [SendToClient]
  · simp [SendToClient, Function.update_noteq h]

@[simp] theorem SendToClient_ip (srv : CandyVPNServer) (peer : Nat) (p : AppPacket) (q : Nat) :
    ((SendToClient srv peer p).heap q).ip = (srv.heap q).ip := by
  by_cases h : q = peer
  · subst h; simp [SendToClient]
  · simp [SendToClient, Function.update_noteq h]

/-! ## The handlers -/

/-- C1: `handleHandshakeAck`.  In state HANDSHAKE the compare-and-swap succeeds: the
state becomes WORKING, one signal is sent on `hsDone`, the registry and `toNet` are
unchanged.  In any other state the peer's state is left as it is, `DeletePeer`
removes its sid from the registry, and exactly one FIN for that peer is appended
to `toNet`. -/
theorem handleHandshakeAck_contract (srv : CandyVPNServer) (peer : Nat) (hp : HopPacket) :
    ((srv.heap peer).state = HOP_STAT_HANDSHAKE →
      ((handleHandshakeAck srv peer hp).heap peer).state = HOP_STAT_WORKING ∧
      ((handleHandshakeAck srv peer hp).heap peer).hsDone = (srv.heap peer).hsDone + 1 ∧
      (handleHandshakeAck srv peer hp).peers = srv.peers ∧
      (handleHandshakeAck srv peer hp).toNet = srv.toNet) ∧
    ((srv.heap peer).state ≠ HOP_STAT_HANDSHAKE →
      (∀ q, ((handleHandshakeAck srv peer hp).heap q).state = (srv.heap q).state) ∧
      ((handleHandshakeAck srv peer hp).heap peer).hsDone = (srv.heap peer).hsDone ∧
      (handleHandshakeAck srv peer hp).peers = (DeletePeer srv (srv.heap peer).sid).peers ∧
      (handleHandshakeAck srv peer hp).peers.Lookup (srv.heap peer).sid = none ∧
      (handleHandshakeAck srv peer hp).toNet
        = srv.toNet ++ [{ conn := peer, seq := (srv.heap peer).seq + 1, app := AppPacket.FinPacket }]) := by
  constructor
  · intro h
    simp [handleHandshakeAck, h]
  · intro h
    simp [handleHandshakeAck, h, DeletePeer_Lookup]
    simp [SendToClient]

/-- C2: `handleDataPacket`.  The packet is appended to `toIface` exactly when the
peer is WORKING; otherwise `toIface` is unchanged; in both cases `toNet`, every peer
object and the registry are unchanged. -/
theorem handleDataPacket_contract (srv : CandyVPNServer) (peer : Nat) (hp : HopPacket) :
    ((handleDataPacket srv peer hp).toIface = srv.toIface ++ [hp]
        ↔ (srv.heap peer).state = HOP_STAT_WORKING) ∧
    ((srv.heap peer).state ≠ HOP_STAT_WORKING →
        (handleDataPacket srv peer hp).toIface = srv.toIface) ∧
    (handleDataPacket srv peer hp).toNet = srv.toNet ∧
    (handleDataPacket srv peer hp).heap = srv.heap ∧
    (handleDataPacket srv peer hp).peers = srv.peers := by
  by_cases h : (srv.heap peer).state = HOP_STAT_WORKING
  · simp [handleDataPacket, h]
  · simp [handleDataPacket, h]

/-- C10: `handlePing`.  One PING_ACK for the peer is appended to `toNet` exactly when
the peer is WORKING; in state HANDSHAKE nothing is queued; the state of every peer,
the registry and `toIface` are unchanged in both cases. -/
theorem handlePing_contract (srv : CandyVPNServer) (hpeer : Nat) (hp : HopPacket) :
    ((handlePing srv hpeer hp).toNet
        = srv.toNet ++ [{ conn := hpeer, seq := (srv.heap hpeer).seq + 1, app := AppPacket.PingAckPacket }]
        ↔ (srv.heap hpeer).state = HOP_STAT_WORKING) ∧
    ((srv.heap hpeer).state = HOP_STAT_HANDSHAKE →
        (handlePing srv hpeer hp).toNet = srv.toNet ∧ (handlePing srv hpeer hp) = srv) ∧
    (∀ q, ((handlePing srv hpeer hp).heap q).state = (srv.heap q).state) ∧
    (handlePing srv hpeer hp).toIface = srv.toIface ∧
    (handlePing srv hpeer hp).peers = srv.peers := by
  by_cases h : (srv.heap hpeer).state = HOP_STAT_WORKING
  · simp [handlePing, h]
  · simp [handlePing, h]

end Hop

namespace Hop

open Flag PeerState

/-! ## The network branch for an unknown session id -/

theorem NewPeer_isSome (srv : CandyVPNServer) (now sid : Nat) :
    (NewPeer srv now sid).2.isSome = true ↔ srv.peers.ippool.free ≠ [] := by
  unfold NewPeer
  cases srv.peers.ippool.free <;> simp

theorem NewPeer_exhausted (srv : CandyVPNServer) (now sid : Nat)
    (h : srv.peers.ippool.free = []) : NewPeer srv now sid = (srv, none) := by
  unfold NewPeer
  rw [h]

theorem NewPeer_Lookup (srv : CandyVPNServer) (now sid ip : Nat) (rest : List Nat)
    (h : srv.peers.ippool.free = ip :: rest) :
    (NewPeer srv now sid).1.peers.Lookup sid = some srv.nextPtr := by
  unfold NewPeer
  rw [h]
  simp [VPNPeers.Lookup, List.lookup]

theorem NewPeer_obj (srv : CandyVPNServer) (now sid ip : Nat) (rest : List Nat)
    (h : srv.peers.ippool.free = ip :: rest) :
    (NewPeer srv now sid).1.heap srv.nextPtr
      = { sid := sid, ip := ip, state := HOP_STAT_HANDSHAKE, lastSeenTime := now, seq := 0,
          hsDone := 0 } ∧
    (NewPeer srv now sid).1.toNet = srv.toNet ∧
    (NewPeer srv now sid).1.toIface = srv.toIface ∧
    (NewPeer srv now sid).1.timers = srv.timers ∧
    (NewPeer srv now sid).1.peers.ippool.subnet = srv.peers.ippool.subnet := by
  unfold NewPeer
  rw [h]
  simp

@[simp] theorem handleHandshake_peers (srv : CandyVPNServer) (peer : Nat) (hp : HopPacket) :
    (handleHandshake srv peer hp).peers = srv.peers := rfl

/-- An HSH for an unknown sid on a registry with a free address: the dispatcher
calls `handleHandshake` on the peer `NewPeer` has just created. -/
theorem forwardFrames_fromNet_newPeer (srv : CandyVPNServer) (now : Nat) (hPack : HopPacket)
    (ip : Nat) (rest : List Nat) (hflag : hPack.Proto = HOP_FLG_HSH)
    (hnew : srv.peers.Lookup hPack.Sid = none) (hfree : srv.peers.ippool.free = ip :: rest) :
    forwardFrames_fromNet srv now (some hPack)
      = handleHandshake
          { (NewPeer srv now hPack.Sid).1 with
              heap := Function.update (NewPeer srv now hPack.Sid).1.heap srv.nextPtr
                { (NewPeer srv now hPack.Sid).1.heap srv.nextPtr with lastSeenTime := now } }
          srv.nextPtr hPack := by
  have hl := NewPeer_Lookup srv now hPack.Sid ip rest hfree
  simp only [forwardFrames_fromNet, hflag, pktHandle, resolvePeer, hnew, if_true, hl, Handler.call]

/-- C4: the network branch of `forwardFrames` for a decoded packet whose sid has no
registered peer.  The sid is registered afterwards exactly when the flag is HSH and
`NewPeer` succeeds, which it does exactly when the pool has a free address; in
every other case no handler is invoked and the whole server state (registry,
`toNet`, `toIface`, peer objects, timers) is what it was. -/
theorem forwardFrames_fromNet_unknown_sid (srv : CandyVPNServer) (now : Nat) (hPack : HopPacket)
    (hnew : srv.peers.Lookup hPack.Sid = none) :
    (((forwardFrames_fromNet srv now (some hPack)).peers.Lookup hPack.Sid).isSome = true
        ↔ (hPack.Proto = HOP_FLG_HSH ∧ (NewPeer srv now hPack.Sid).2.isSome = true)) ∧
    ((NewPeer srv now hPack.Sid).2.isSome = true ↔ srv.peers.ippool.free ≠ []) ∧
    (¬ (hPack.Proto = HOP_FLG_HSH ∧ (NewPeer srv now hPack.Sid).2.isSome = true) →
        invoked srv now hPack = none ∧ forwardFrames_fromNet srv now (some hPack) = srv) := by
  have hother : ¬ (hPack.Proto = HOP_FLG_HSH ∧ (NewPeer srv now hPack.Sid).2.isSome = true) →
      invoked srv now hPack = none ∧ forwardFrames_fromNet srv now (some hPack) = srv := by
    intro hno
    by_cases hflag : hPack.Proto = HOP_FLG_HSH
    · have hfree : srv.peers.ippool.free = [] := by
        by_contra hne
        exact hno ⟨hflag, (NewPeer_isSome srv now hPack.Sid).2 hne⟩
      have hN := NewPeer_exhausted srv now hPack.Sid hfree
      simp [invoked, forwardFrames_fromNet, pktHandle, resolvePeer, hflag, hnew, hN]
    · cases hp : hPack.Proto <;>
        simp_all [invoked, forwardFrames_fromNet, pktHandle, resolvePeer]
  refine ⟨⟨?_, ?_⟩, NewPeer_isSome srv now hPack.Sid, hother⟩
  · intro hreg
    by_contra hno
    rw [(hother hno).2, hnew] at hreg
    simp at hreg
  · rintro ⟨hflag, hsome⟩
    have hne := (NewPeer_isSome srv now hPack.Sid).1 hsome
    obtain ⟨ip, rest, hfree⟩ := List.exists_cons_of_ne_nil hne
    rw [forwardFrames_fromNet_newPeer srv now hPack ip rest hflag hnew hfree]
    simp [NewPeer_Lookup srv now hPack.Sid ip rest hfree]

/-- C5: `handleFinish`.  Afterwards the peer's sid is absent from the registry and
exactly one FIN_ACK for the peer has been appended to `toNet`; a PING with the same
sid then passing through the network branch invokes no handler and leaves the
server state as it is. -/
theorem handleFinish_contract (srv : CandyVPNServer) (peer : Nat) (hp : HopPacket)
    (now seq : Nat) (payload : List Nat) :
    (handleFinish srv peer hp).peers.Lookup (srv.heap peer).sid = none ∧
    (handleFinish srv peer hp).peers = (DeletePeer srv (srv.heap peer).sid).peers ∧
    (handleFinish srv peer hp).toNet
      = srv.toNet ++ [{ conn := peer, seq := (srv.heap peer).seq + 1, app := AppPacket.FinAckPacket }] ∧
    (handleFinish srv peer hp).toIface = srv.toIface ∧
    invoked (handleFinish srv peer hp) now
      { Proto := HOP_FLG_PING, Sid := (srv.heap peer).sid, Seq := seq, Payload := payload } = none ∧
    forwardFrames_fromNet (handleFinish srv peer hp) now
      (some { Proto := HOP_FLG_PING, Sid := (srv.heap peer).sid, Seq := seq, Payload := payload })
      = handleFinish srv peer hp := by
  have hl : (handleFinish srv peer hp).peers.Lookup (srv.heap peer).sid = none := by
    simp [handleFinish, DeletePeer_Lookup]
  refine ⟨hl, by simp [handleFinish], ?_, by simp [handleFinish], ?_, ?_⟩
  · simp [handleFinish]
  · simp [invoked, pktHandle, resolvePeer, hl]
  · simp [forwardFrames_fromNet, pktHandle, resolvePeer, hl]

end Hop

namespace Hop

open Flag PeerState

/-! ## `handleHandshake` -/

/-- C3: `handleHandshake`.  Whatever the prior state, afterwards the peer is in
HANDSHAKE, exactly one HSH_ACK for it has been appended to `toNet`, carrying the
peer's ip and the number of leading ones of the subnet mask, and one waiting timer
goroutine for the peer has been started; the registry is unchanged.  In particular
an HSH for an unknown sid on a registry whose pool has a first free address `ip`
registers a new peer, in HANDSHAKE, holding `ip`, and queues the HSH_ACK carrying
`ip` and the mask size. -/
theorem handleHandshake_contract (srv : CandyVPNServer) (peer : Nat) (hp : HopPacket) :
    ((handleHandshake srv peer hp).heap peer).state = HOP_STAT_HANDSHAKE ∧
    (handleHandshake srv peer hp).toNet
      = srv.toNet ++ [{ conn := peer, seq := (srv.heap peer).seq + 1,
                        app := AppPacket.HandshakeAckPacket (srv.heap peer).ip
                                 srv.peers.ippool.subnet.Mask.ones }] ∧
    (handleHandshake srv peer hp).timers
      = srv.timers ++ [{ peer := peer, phase := TimerPhase.waiting }] ∧
    (handleHandshake srv peer hp).peers = srv.peers ∧
    (handleHandshake srv peer hp).toIface = srv.toIface ∧
    (∀ (now : Nat) (hPack : HopPacket) (ip : Nat) (rest : List Nat),
      hPack.Proto = HOP_FLG_HSH → srv.peers.Lookup hPack.Sid = none →
      srv.peers.ippool.free = ip :: rest →
        (forwardFrames_fromNet srv now (some hPack)).peers.Lookup hPack.Sid = some srv.nextPtr ∧
        ((forwardFrames_fromNet srv now (some hPack)).heap srv.nextPtr).state = HOP_STAT_HANDSHAKE ∧
        ((forwardFrames_fromNet srv now (some hPack)).heap srv.nextPtr).ip = ip ∧
        ((forwardFrames_fromNet srv now (some hPack)).heap srv.nextPtr).sid = hPack.Sid ∧
        (forwardFrames_fromNet srv now (some hPack)).toNet
          = srv.toNet ++ [{ conn := srv.nextPtr, seq := 1,
                            app := AppPacket.HandshakeAckPacket ip
                                     srv.peers.ippool.subnet.Mask.ones }] ∧
        (forwardFrames_fromNet srv now (some hPack)).timers
          = srv.timers ++ [{ peer := srv.nextPtr, phase := TimerPhase.waiting }]) := by
  refine ⟨by simp [handleHandshake], by simp [handleHandshake, IPMask.Size], rfl, rfl, rfl, ?_⟩
  intro now hPack ip rest hflag hnew hfree
  rw [forwardFrames_fromNet_newPeer srv now hPack ip rest hflag hnew hfree]
  obtain ⟨hobj, htn, -, htm, hsub⟩ := NewPeer_obj srv now hPack.Sid ip rest hfree
  refine ⟨?_, ?_, ?_, ?_, ?_, ?_⟩
  · simpa using NewPeer_Lookup srv now hPack.Sid ip rest hfree
  · simp [handleHandshake]
  · simp [handleHandshake, hobj]
  · simp [handleHandshake, hobj]
  · simp [handleHandshake, hobj, htn, hsub, IPMask.Size]
  · simp [handleHandshake, htm]

end Hop

namespace Hop

open Flag PeerState

/-! ## Scenarios -/

/-- C6: after HSH, HSH_ACK (signal taken by timer 0) and a second HSH, peer 0 is
back in HANDSHAKE; the next step is the plain store of timer 0 (server.go:283),
which is not a compare-and-swap of `handleHandshakeAck`, and it leaves peer 0 in
WORKING. -/
theorem timer_store_moves_handshake_to_working :
    (run traceRehandshake (initServer subnet24)).map
        (fun s => ((s.heap 0).state, casSuccess s (Event.timerStore 0),
                   (step s (Event.timerStore 0)).map (fun s' => (s'.heap 0).state)))
      = some (HOP_STAT_HANDSHAKE, none, some HOP_STAT_WORKING) := by
  decide

/-- C7: two HSH for sid 42 start two timers; the HSH_ACK makes the peer WORKING and
its single signal is taken by timer 0.  Timer 1 still waits with no signal pending,
and when it expires the WORKING peer is sent FIN and deleted from the registry. -/
theorem handshake_timer_expires_on_working_peer :
    (run traceDoubleHandshake (initServer subnet24)).map
        (fun s => ((s.heap 0).state, (s.heap 0).hsDone, s.peers.Lookup 42, s.timers.get? 1,
                   (step s (Event.timerExpire 1)).map
                     (fun s' => (s'.peers.Lookup 42, s'.toNet.getLast?))))
      = some (HOP_STAT_WORKING, 0, some 0, some { peer := 0, phase := TimerPhase.waiting },
              some (none, some { conn := 0, seq := 3, app := AppPacket.FinPacket })) := by
  rfl

/-- C8: the registry has pushed the WORKING peer of sid 42 onto `PeerTimeout`.  The
watcher receives it and sends it one FIN, but sid 42 and its address are still in
both indices afterwards and the address has not returned to the pool. -/
theorem peerTimeoutWatcher_leaves_peer_registered :
    (run traceKeepaliveTimeout (initServer subnet24)).map
        (fun s => (s.peers.PeerTimeout,
                   (peerTimeoutWatcher_timeout s).map
                     (fun s' => (s'.toNet.getLast?, s'.peers.Lookup 42,
                                 s'.peers.LookupByIP 168296449, s'.peers.ippool.free.head?,
                                 s'.peers.PeerTimeout))))
      = some ([0], some (some { conn := 0, seq := 2, app := AppPacket.FinPacket }, some 0, some 0,
                         some 168296450, [])) := by
  rfl

/-- C9: the key `binary.Uvarint` computes from the destination bytes is 10 for both
10.8.0.1 and 10.8.0.2, and a frame for 10.8.0.1 is dropped although the peer holding
10.8.0.1 is registered under that address. -/
theorem uvarint_key_collides :
    IPv4Destination (frameTo 1) = some [10, 8, 0, 1] ∧
    IPv4Destination (frameTo 2) = some [10, 8, 0, 2] ∧
    Uvarint [10, 8, 0, 1] = (10, 1) ∧
    Uvarint [10, 8, 0, 2] = (10, 1) ∧
    exWorking.peers.peersByIP = [(10 * 2 ^ 24 + 8 * 2 ^ 16 + 0 * 2 ^ 8 + 1, 0)] ∧
    (exWorking.heap 0).ip = 10 * 2 ^ 24 + 8 * 2 ^ 16 + 0 * 2 ^ 8 + 1 ∧
    (exWorking.heap 0).state = HOP_STAT_WORKING ∧
    (forwardFrames_fromIface exWorking (frameTo 1)).map (fun s => s.toNet)
      = some exWorking.toNet := by
  decide

/-! ## Instances of the contracts -/

set_option maxRecDepth 8000

theorem handleHandshakeAck_contract_witness :
    ((exHandshake.heap 0).state = HOP_STAT_HANDSHAKE ∧
      ((handleHandshakeAck exHandshake 0 (pkt HOP_FLG_HSH_ACK 42)).heap 0).state
        = HOP_STAT_WORKING) ∧
    ((exWorking.heap 0).state ≠ HOP_STAT_HANDSHAKE ∧
      (handleHandshakeAck exWorking 0 (pkt HOP_FLG_HSH_ACK 42)).peers.Lookup
        (exWorking.heap 0).sid = none) :=
  ⟨⟨by decide, ((handleHandshakeAck_contract exHandshake 0 (pkt HOP_FLG_HSH_ACK 42)).1
      (by decide)).1⟩,
   ⟨by decide, ((handleHandshakeAck_contract exWorking 0 (pkt HOP_FLG_HSH_ACK 42)).2
      (by decide)).2.2.2.1⟩⟩

theorem handleDataPacket_contract_witness :
    (exHandshake.heap 0).state ≠ HOP_STAT_WORKING ∧
    (handleDataPacket exHandshake 0 (pkt HOP_FLG_DAT 42)).toIface = exHandshake.toIface :=
  ⟨by decide, (handleDataPacket_contract exHandshake 0 (pkt HOP_FLG_DAT 42)).2.1 (by decide)⟩

theorem handlePing_contract_witness :
    (exHandshake.heap 0).state = HOP_STAT_HANDSHAKE ∧
    (handlePing exHandshake 0 (pkt HOP_FLG_PING 42)).toNet = exHandshake.toNet :=
  ⟨by decide, ((handlePing_contract exHandshake 0 (pkt HOP_FLG_PING 42)).2.1 (by decide)).1⟩

theorem handleHandshake_contract_witness :
    (pkt HOP_FLG_HSH 42).Proto = HOP_FLG_HSH ∧
    (initServer subnet24).peers.Lookup (pkt HOP_FLG_HSH 42).Sid = none ∧
    (initServer subnet24).peers.ippool.free
      = 168296449 :: (List.range 253).map (fun i => 168296450 + i) ∧
    (forwardFrames_fromNet (initServer subnet24) 0 (some (pkt HOP_FLG_HSH 42))).toNet
      = (initServer subnet24).toNet ++
          [{ conn := (initServer subnet24).nextPtr, seq := 1,
             app := AppPacket.HandshakeAckPacket 168296449
                      (initServer subnet24).peers.ippool.subnet.Mask.ones }] :=
  ⟨rfl, rfl, rfl,
   ((handleHandshake_contract (initServer subnet24) 0 (pkt HOP_FLG_HSH 42)).2.2.2.2.2
      0 (pkt HOP_FLG_HSH 42) 168296449 ((List.range 253).map (fun i => 168296450 + i))
      rfl rfl rfl).2.2.2.2.1⟩

theorem forwardFrames_fromNet_unknown_sid_witness :
    (initServer subnet24).peers.Lookup (pkt HOP_FLG_PING 7).Sid = none ∧
    forwardFrames_fromNet (initServer subnet24) 0 (some (pkt HOP_FLG_PING 7))
      = initServer subnet24 :=
  ⟨rfl, ((forwardFrames_fromNet_unknown_sid (initServer subnet24) 0 (pkt HOP_FLG_PING 7) rfl).2.2
      (by decide)).2⟩

end Hop
